import Mathlib

/-!
Verification of `src/services/playlistImportService.ts` (playlist import
pipeline): URL classification, provider fetchers with ordered fallback,
per-track catalog matching, and the import orchestrator.

The TypeScript source is shallowly embedded: network calls and external
collaborators (`fetch`, the two catalog search backends, the storage
service, `Date.now`) are supplied as explicit oracle parameters, and the
orchestrator additionally returns the list of emitted progress events and
the list of external operations it performed (fetcher invocations and
storage calls), so that "X is never invoked" claims are statements about
those traces.  JavaScript truthiness of a string is non-emptiness; a field
that may be `undefined` at runtime is modelled as `Option`, and a JS
`undefined` flowing into a `string`-typed slot is modelled as `""`.
-/

namespace PlaylistImport

/-- The platform tag returned by the URL classifier (`ImportPlatform`). -/
inductive ImportPlatform where
  | spotify
  | apple
  | youtube
  | unknown
deriving DecidableEq, Repr

/-- Embedding of `ImportedTrack`: platform-native track produced by a provider fetcher. -/
structure ImportedTrack where
  title : String
  artist : String
  album : Option String
  duration : Option Nat
deriving DecidableEq, Repr

/-- Modelled from the spec: `CatalogTrack` of the catalog search collaborator
(`MusicTrack` in `./hifi`, not among the sources of this repository).  Fields
consumed by the core: id, title, artist, artistId, album, albumId, duration,
coverArt. -/
structure MusicTrack where
  id : String
  title : String
  artist : String
  artistId : Option String
  album : Option String
  albumId : Option String
  duration : Option Nat
  coverArt : Option String
deriving DecidableEq, Repr

/-- Modelled from the spec: `PlaylistTrack` of the persistence collaborator
(`./storage`, not among the sources of this repository), holding the catalog
track enriched with import provenance, exactly the fields the core writes. -/
structure PlaylistTrack where
  id : String
  source : String
  title : String
  artist : String
  artistId : Option String
  album : Option String
  albumId : Option String
  duration : Option Nat
  coverArt : Option String
  addedAt : Nat
  originalTitle : String
  originalArtist : String
  matchConfidence : Nat
deriving DecidableEq, Repr

/-- Import provenance recorded on a saved playlist. -/
structure ImportSource where
  platform : ImportPlatform
  originalId : String
  originalName : String
deriving DecidableEq, Repr

/-- Modelled from the spec: `UserPlaylist` of the persistence collaborator,
restricted to the fields the core reads or writes (`...newPlaylist` keeps the
identity and name assigned by `createPlaylist`). -/
structure UserPlaylist where
  id : String
  name : String
  tracks : List PlaylistTrack
  coverArt : Option String
  importSource : Option ImportSource
deriving DecidableEq, Repr

/-- Embedding of `ImportResult`: terminal summary returned by `importPlaylist`. -/
structure ImportResult where
  success : Bool
  playlist : Option UserPlaylist
  totalTracks : Nat
  matchedTracks : Nat
  unmatchedTracks : List ImportedTrack
  error : Option String
deriving DecidableEq, Repr

/-- The `stage` field of a progress event. -/
inductive ImportStage where
  | fetching
  | matching
  | saving
  | done
  | error
deriving DecidableEq, Repr

/-- Embedding of `ImportProgress`: transient event passed to the progress callback. -/
structure ImportProgress where
  stage : ImportStage
  current : Nat
  total : Nat
  message : String
deriving DecidableEq, Repr

-- ===========================================================================
-- JS-value helpers
-- ===========================================================================

/-- JS truthiness of a string: non-empty. -/
def truthy (s : String) : Bool := decide (s ≠ "")

/-- JS `a || d` where `a` is a string field that may be `undefined`:
falls through to the default on `undefined` and on the empty string. -/
def jsOrStr (a : Option String) (d : String) : String :=
  match a with
  | some s => if s = "" then d else s
  | none => d

/-- JS `a || d` on a numeric field that may be `undefined`:
falls through on `undefined` and on `0`. -/
def jsOrNat (a : Option Nat) (d : Nat) : Nat :=
  match a with
  | some n => if n = 0 then d else n
  | none => d

-- ===========================================================================
-- URL Parsing (`detectPlatform`, `parseSpotifyUrl`, `parseAppleMusicUrl`,
-- `parseYouTubeMusicUrl`)
-- ===========================================================================

/-- Whether `needle` occurs as a contiguous substring of `hay`
(JS `String.prototype.includes`). -/
def hasSubList (needle : List Char) : List Char → Bool
  | [] => needle.isEmpty
  | c :: cs => needle.isPrefixOf (c :: cs) || hasSubList needle cs

/-- JS `s.includes sub` on strings. -/
def containsSub (s sub : String) : Bool := hasSubList sub.toList s.toList

/-- ASCII lowercasing of one character (`toLowerCase` restricted to the ASCII
range; the domain substrings tested below are all ASCII). -/
def lowerChar (c : Char) : Char :=
  if 'A' ≤ c && c ≤ 'Z' then Char.ofNat (c.toNat + 32) else c

/-- JS `url.toLowerCase()`. -/
def toLowerStr (s : String) : String := String.mk (s.toList.map lowerChar)

/-- Embedding of `detectPlatform(url)`: lowercase the URL and test domain substrings in a
fixed priority order. -/
def detectPlatform (url : String) : ImportPlatform :=
  let lowerUrl := toLowerStr url
  if containsSub lowerUrl "spotify.com" || containsSub lowerUrl "spotify.link" then
    .spotify
  else if containsSub lowerUrl "music.apple.com" || containsSub lowerUrl "itunes.apple.com" then
    .apple
  else if containsSub lowerUrl "music.youtube.com" || containsSub lowerUrl "youtube.com/playlist" then
    .youtube
  else
    .unknown

/-- The character class `[a-zA-Z0-9]` of the parsing regexes. -/
def isAlnumChar (c : Char) : Bool :=
  ('a' ≤ c && c ≤ 'z') || ('A' ≤ c && c ≤ 'Z') || ('0' ≤ c && c ≤ '9')

/-- One anchored attempt of `/playlist\/([a-zA-Z0-9]+)/` at the start of `l`:
the literal `playlist/` followed by a maximal non-empty alphanumeric run. -/
def spotifyIdAt (l : List Char) : Option (List Char) :=
  if ("playlist/".toList).isPrefixOf l then
    let run := (l.drop 9).takeWhile isAlnumChar
    if run.isEmpty then none else some run
  else none

/-- Leftmost-match scan of `/playlist\/([a-zA-Z0-9]+)/`. -/
def scanSpotify : List Char → Option (List Char)
  | [] => none
  | c :: cs =>
    match spotifyIdAt (c :: cs) with
    | some r => some r
    | none => scanSpotify cs

/-- Embedding of `parseSpotifyUrl(url)`: first capture of `/playlist\/([a-zA-Z0-9]+)/`,
or none. -/
def parseSpotifyUrl (url : String) : Option String :=
  (scanSpotify url.toList).map (fun l => String.mk l)

/-- The character class `[a-z]` (storefront letters). -/
def isLowerAlpha (c : Char) : Bool := 'a' ≤ c && c ≤ 'z'

/-- One anchored attempt of
`/music\.apple\.com\/([a-z]{2})\/playlist\/[^\/]+\/(pl\.[a-zA-Z0-9]+)/`
at the start of `l`.  The greedy `[^\/]+` segment cannot backtrack usefully
(shortening it leaves a non-slash character where `/` is required), so it is
the maximal run of non-slash characters. -/
def appleIdAt (l : List Char) : Option (String × String) :=
  if ("music.apple.com/".toList).isPrefixOf l then
    match l.drop 16 with
    | c1 :: c2 :: rest =>
      if isLowerAlpha c1 && isLowerAlpha c2 && ("/playlist/".toList).isPrefixOf rest then
        let rest2 := rest.drop 10
        let seg := rest2.takeWhile (fun c => c ≠ '/')
        if seg.isEmpty then none
        else
          let rest3 := rest2.drop seg.length
          if ("/pl.".toList).isPrefixOf rest3 then
            let run := (rest3.drop 4).takeWhile isAlnumChar
            if run.isEmpty then none
            else some (String.mk [c1, c2], "pl." ++ String.mk run)
          else none
      else none
    | _ => none
  else none

/-- Leftmost-match scan for the Apple Music playlist pattern. -/
def scanApple : List Char → Option (String × String)
  | [] => none
  | c :: cs =>
    match appleIdAt (c :: cs) with
    | some r => some r
    | none => scanApple cs

/-- Embedding of `parseAppleMusicUrl(url)`: `{storefront, id}` or none. -/
def parseAppleMusicUrl (url : String) : Option (String × String) :=
  scanApple url.toList

/-- The character class `[a-zA-Z0-9_-]` of the YouTube list id. -/
def isListIdChar (c : Char) : Bool := isAlnumChar c || c = '_' || c = '-'

/-- One anchored attempt of `/[?&]list=([a-zA-Z0-9_-]+)/` at the start. -/
def ytIdAt (l : List Char) : Option (List Char) :=
  match l with
  | c :: rest =>
    if (c = '?' || c = '&') && ("list=".toList).isPrefixOf rest then
      let run := (rest.drop 5).takeWhile isListIdChar
      if run.isEmpty then none else some run
    else none
  | [] => none

/-- Leftmost-match scan for the YouTube Music list pattern. -/
def scanYt : List Char → Option (List Char)
  | [] => none
  | c :: cs =>
    match ytIdAt (c :: cs) with
    | some r => some r
    | none => scanYt cs

/-- Embedding of `parseYouTubeMusicUrl(url)`: the `list=` id or none. -/
def parseYouTubeMusicUrl (url : String) : Option String :=
  (scanYt url.toList).map (fun l => String.mk l)

-- ===========================================================================
-- Provider fetchers.  Each HTTP response is an oracle parameter: `none`
-- stands for a thrown error or a non-ok status, `some` for an ok JSON body
-- of the shape the source destructures.
-- ===========================================================================

/-- The normalized `{name, tracks}` payload every fetcher returns. -/
structure FetchedPlaylist where
  name : String
  tracks : List ImportedTrack
deriving DecidableEq, Repr

/-- One entry of `metaData.trackList` (SpotifyDown strategy); every field the
source reads, each possibly `undefined`. -/
structure SpotifyMetaTrack where
  title : Option String
  name : Option String
  artists : Option String
  artist : Option String
  album : Option String
  durationSec : Option Nat
  duration : Option Nat
deriving DecidableEq, Repr

/-- The SpotifyDown metadata body: `success`, `trackList`, `title`. -/
structure SpotifyMeta where
  success : Bool
  trackList : Option (List SpotifyMetaTrack)
  title : Option String
deriving DecidableEq, Repr

/-- A `{name}` object (artist or album) of the scraper / embed payloads. -/
structure NamedObj where
  name : Option String
deriving DecidableEq, Repr

/-- The nested `item.track` object of the scraper payload. -/
structure ScraperTrackObj where
  name : Option String
  artists : Option (List NamedObj)
  album : Option NamedObj
  duration_ms : Option Nat
deriving DecidableEq, Repr

/-- One entry of `data.tracks.items` (Spotify Scraper strategy). -/
structure ScraperItem where
  track : Option ScraperTrackObj
  name : Option String
  artists : Option (List NamedObj)
  album : Option NamedObj
  duration_ms : Option Nat
deriving DecidableEq, Repr

/-- The `data.tracks` object of the scraper payload. -/
structure ScraperTracks where
  items : Option (List ScraperItem)
deriving DecidableEq, Repr

/-- The Spotify Scraper body: `name`, `tracks.items`. -/
structure ScraperData where
  name : Option String
  tracks : Option ScraperTracks
deriving DecidableEq, Repr

/-- One entry of `data.playlist.tracks` (embed-page strategy). -/
structure EmbedTrack where
  name : Option String
  artists : Option (List NamedObj)
  album : Option NamedObj
  duration_ms : Option Nat
deriving DecidableEq, Repr

/-- The `data.playlist` object of the embed payload. -/
structure EmbedPlaylist where
  name : Option String
  tracks : Option (List EmbedTrack)
deriving DecidableEq, Repr

/-- The parsed inline `Spotify = {...}` object of the embed page. -/
structure EmbedData where
  playlist : Option EmbedPlaylist
deriving DecidableEq, Repr

/-- JS `xs?.[0]?.name` on an optional artist list. -/
def firstName (l : Option (List NamedObj)) : Option String :=
  (l.bind List.head?).bind (fun a => a.name)

/-- The drop-invalid filter `.filter((t) => t.title && t.artist)` shared by
the three Spotify strategies. -/
def dropInvalid (l : List ImportedTrack) : List ImportedTrack :=
  l.filter (fun t => truthy t.title && truthy t.artist)

/-- The track mapping of the SpotifyDown strategy. -/
def mapSpotifyMetaTrack (t : SpotifyMetaTrack) : ImportedTrack :=
  { title := jsOrStr t.title (jsOrStr t.name "")
    artist := jsOrStr t.artists (jsOrStr t.artist "")
    album := some (jsOrStr t.album "")
    duration := some (jsOrNat t.durationSec (jsOrNat t.duration 0)) }

/-- The track mapping of the Spotify Scraper strategy. -/
def mapScraperItem (it : ScraperItem) : ImportedTrack :=
  { title := jsOrStr (it.track.bind (fun tr => tr.name)) (jsOrStr it.name "")
    artist := jsOrStr (firstName (it.track.bind (fun tr => tr.artists)))
        (jsOrStr (firstName it.artists) "")
    album := some (jsOrStr ((it.track.bind (fun tr => tr.album)).bind (fun a => a.name))
        (jsOrStr (it.album.bind (fun a => a.name)) ""))
    duration := some ((jsOrNat (it.track.bind (fun tr => tr.duration_ms))
        (jsOrNat it.duration_ms 0)) / 1000) }

/-- The track mapping of the embed-page strategy. -/
def mapEmbedTrack (t : EmbedTrack) : ImportedTrack :=
  { title := jsOrStr t.name ""
    artist := jsOrStr (firstName t.artists) ""
    album := some (jsOrStr (t.album.bind (fun a => a.name)) "")
    duration := some ((jsOrNat t.duration_ms 0) / 1000) }

/-- Strategy 1 of `fetchSpotifyPlaylist` (SpotifyDown metadata endpoint):
returns a payload iff the response is ok, `success` is set, `trackList` is
present and non-empty; the mapped list is then filtered for valid tracks. -/
def spotifyStage1 (o : Option SpotifyMeta) : Option FetchedPlaylist :=
  match o with
  | some meta =>
    match meta.trackList with
    | some l =>
      if meta.success && decide (0 < l.length) then
        some { name := jsOrStr meta.title "Spotify Playlist",
               tracks := dropInvalid (l.map mapSpotifyMetaTrack) }
      else none
    | none => none
  | none => none

/-- Strategy 2 of `fetchSpotifyPlaylist` (Spotify Scraper endpoint). -/
def spotifyStage2 (o : Option ScraperData) : Option FetchedPlaylist :=
  match o with
  | some d =>
    match d.tracks with
    | some tr =>
      match tr.items with
      | some items =>
        if decide (0 < items.length) then
          some { name := jsOrStr d.name "Spotify Playlist",
                 tracks := dropInvalid (items.map mapScraperItem) }
        else none
      | none => none
    | none => none
  | none => none

/-- Strategy 3 of `fetchSpotifyPlaylist` (embed page).  The outer option is
the HTTP outcome; the inner option is whether the inline `Spotify = {...}`
script was found and parsed.  Note the source has no emptiness check here. -/
def spotifyStage3 (o : Option (Option EmbedData)) : Option FetchedPlaylist :=
  match o with
  | some (some d) =>
    match d.playlist with
    | some pl =>
      match pl.tracks with
      | some ts =>
        some { name := jsOrStr pl.name "Spotify Playlist",
               tracks := dropInvalid (ts.map mapEmbedTrack) }
      | none => none
    | none => none
  | some none => none
  | none => none

/-- Embedding of `fetchSpotifyPlaylist`, with the list of strategies attempted (1-3) as a
trace.  Failure of each strategy falls through to the next; if all three fail
the fetcher returns no result. -/
def fetchSpotifyPlaylistT (o1 : Option SpotifyMeta) (o2 : Option ScraperData)
    (o3 : Option (Option EmbedData)) : Option FetchedPlaylist × List Nat :=
  match spotifyStage1 o1 with
  | some p => (some p, [1])
  | none =>
    match spotifyStage2 o2 with
    | some p => (some p, [1, 2])
    | none => (spotifyStage3 o3, [1, 2, 3])

/-- Embedding of `fetchSpotifyPlaylist` (result only). -/
def fetchSpotifyPlaylist (o1 : Option SpotifyMeta) (o2 : Option ScraperData)
    (o3 : Option (Option EmbedData)) : Option FetchedPlaylist :=
  (fetchSpotifyPlaylistT o1 o2 o3).1

/-- The `attributes` object of an Apple Music track or playlist. -/
structure AppleAttributes where
  name : Option String
  artistName : Option String
  albumName : Option String
  durationInMillis : Option Nat
deriving DecidableEq, Repr

/-- One entry of `playlist.relationships.tracks.data`. -/
structure AppleTrack where
  attributes : Option AppleAttributes
deriving DecidableEq, Repr

/-- The `relationships.tracks` object. -/
structure AppleTracksRel where
  data : Option (List AppleTrack)
deriving DecidableEq, Repr

/-- The `relationships` object of the playlist. -/
structure AppleRelationships where
  tracks : Option AppleTracksRel
deriving DecidableEq, Repr

/-- The `data.data[0]` playlist object. -/
structure ApplePlaylistObj where
  attributes : Option AppleAttributes
  relationships : Option AppleRelationships
deriving DecidableEq, Repr

/-- The Apple Music catalog API body. -/
structure AppleResp where
  data : Option (List ApplePlaylistObj)
deriving DecidableEq, Repr

/-- The Apple Music track mapping.  `t.attributes?.name` and
`t.attributes?.artistName` flow into required string fields, so a missing
value is modelled as `""`; `durationInMillis ? floor(ms/1000) : undefined`
is a truthiness test, so `0` also yields no duration. -/
def mapAppleTrack (t : AppleTrack) : ImportedTrack :=
  { title := (t.attributes.bind (fun a => a.name)).getD ""
    artist := (t.attributes.bind (fun a => a.artistName)).getD ""
    album := t.attributes.bind (fun a => a.albumName)
    duration :=
      match t.attributes.bind (fun a => a.durationInMillis) with
      | some ms => if ms = 0 then none else some (ms / 1000)
      | none => none }

/-- JS `(playlist.relationships?.tracks?.data || [])` of the head playlist
object, or `[]` when there is no playlist object. -/
def appleTrackData (resp : AppleResp) : List AppleTrack :=
  match resp.data.bind List.head? with
  | some pl => ((pl.relationships.bind (fun r => r.tracks)).bind (fun tr => tr.data)).getD []
  | none => []

/-- Embedding of `fetchAppleMusicPlaylist`: single strategy, one API call; any thrown
error or non-ok status (`none` oracle) or missing `data[0]` yields no
result.  The mapped list is returned unfiltered. -/
def fetchAppleMusicPlaylist (o : Option AppleResp) : Option FetchedPlaylist :=
  match o with
  | none => none
  | some resp =>
    match resp.data.bind List.head? with
    | none => none
    | some pl =>
      some { name := jsOrStr (pl.attributes.bind (fun a => a.name)) "Apple Music Playlist",
             tracks := (((pl.relationships.bind (fun r => r.tracks)).bind
                 (fun tr => tr.data)).getD []).map mapAppleTrack }

/-- One entry of `data.videos` of an Invidious playlist response. -/
structure YtVideo where
  title : Option String
  author : Option String
  authorId : Option String
  lengthSeconds : Option Nat
deriving DecidableEq, Repr

/-- An Invidious playlist body: `title`, `videos`. -/
structure YtResp where
  title : Option String
  videos : Option (List YtVideo)
deriving DecidableEq, Repr

/-- The YouTube Music track mapping: no album, and the artist falls back
from `author` to `authorId` to the Unknown Artist default. -/
def mapYtVideo (v : YtVideo) : ImportedTrack :=
  { title := v.title.getD ""
    artist := jsOrStr v.author (jsOrStr v.authorId "Unknown Artist")
    album := none
    duration := v.lengthSeconds }

/-- The fixed list of Invidious instances tried in order. -/
def INVIDIOUS_INSTANCES : List String :=
  ["https://invidious.io.lol", "https://inv.nadeko.net", "https://invidious.nerdvpn.de"]

/-- The instance loop of `fetchYouTubeMusicPlaylist`: each `none` response
(thrown error or non-ok status) is skipped with `continue`; the first ok
response is returned — with no emptiness check on `data.videos`. -/
def fetchYouTubeList : List (Option YtResp) → Option FetchedPlaylist
  | [] => none
  | none :: rest => fetchYouTubeList rest
  | some resp :: _ =>
    some { name := jsOrStr resp.title "YouTube Music Playlist",
           tracks := (resp.videos.getD []).map mapYtVideo }

/-- Embedding of `fetchYouTubeMusicPlaylist`: the oracle gives the response of each instance. -/
def fetchYouTubeMusicPlaylist (o : String → Option YtResp) : Option FetchedPlaylist :=
  fetchYouTubeList (INVIDIOUS_INSTANCES.map o)

-- ===========================================================================
-- Track matching (`matchTrack`)
-- ===========================================================================

/-- A catalog backend call, as an oracle from the query string: `none` covers
a thrown error, a null result, or a missing `tracks` field — all of which the
source treats identically (fall through); `some l` is a result list. -/
def BackendOracle : Type := String → Option (List MusicTrack)

/-- The backend returned nothing usable for this query (threw, returned
null/no `tracks`, or an empty list). -/
def noResults (r : Option (List MusicTrack)) : Prop := r = none ∨ r = some []

/-- Building the `PlaylistTrack` from a catalog result (the record literal
shared by both branches of `matchTrack`, differing in `source` and
`matchConfidence`). -/
def toPlaylistTrack (src : String) (conf : Nat) (now : Nat)
    (track : ImportedTrack) (m : MusicTrack) : PlaylistTrack :=
  { id := m.id
    source := src
    title := m.title
    artist := m.artist
    artistId := m.artistId
    album := m.album
    albumId := m.albumId
    duration := m.duration
    coverArt := m.coverArt
    addedAt := now
    originalTitle := track.title
    originalArtist := track.artist
    matchConfidence := conf }

/-- Embedding of `matchTrack`, with the list of backends queried (by tag) as a trace.
Query is title and artist space-joined; Qobuz (high-trust) first with fixed
confidence 90, then Tidal (fallback) with fixed confidence 85; the first
element of the first non-empty result list wins. -/
def matchTrackT (qobuz tidal : BackendOracle) (now : Nat)
    (track : ImportedTrack) : Option PlaylistTrack × List String :=
  let query := track.title ++ " " ++ track.artist
  match qobuz query with
  | some (m :: _) => (some (toPlaylistTrack "qobuz" 90 now track m), ["qobuz"])
  | _ =>
    match tidal query with
    | some (m :: _) => (some (toPlaylistTrack "tidal" 85 now track m), ["qobuz", "tidal"])
    | _ => (none, ["qobuz", "tidal"])

/-- Embedding of `matchTrack` (result only). -/
def matchTrack (qobuz tidal : BackendOracle) (now : Nat)
    (track : ImportedTrack) : Option PlaylistTrack :=
  (matchTrackT qobuz tidal now track).1

-- ===========================================================================
-- Import orchestrator (`importPlaylist`)
-- ===========================================================================

/-- The external world of one `importPlaylist` call: the HTTP responses of
every fetcher strategy (as a function of the extracted playlist id), the two
catalog backends, the `createPlaylist` call of the storage collaborator, and the clock
(`Date.now()`, modelled as one fixed instant). -/
structure ImportEnv where
  spotifyMeta : String → Option SpotifyMeta
  spotifyScraper : String → Option ScraperData
  spotifyEmbed : String → Option (Option EmbedData)
  apple : String → String → Option AppleResp
  youtube : String → String → Option YtResp
  qobuz : BackendOracle
  tidal : BackendOracle
  createPlaylist : String → UserPlaylist
  now : Nat

/-- An externally visible operation of the orchestrator: one provider-fetcher
invocation, or one storage call. -/
inductive ImportOp where
  | fetch (platform : ImportPlatform) (id : String)
  | create (name : String)
  | update (playlist : UserPlaylist)
deriving DecidableEq, Repr

/-- The platform string interpolated into the fetching message. -/
def platformName : ImportPlatform → String
  | .spotify => "spotify"
  | .apple => "apple"
  | .youtube => "youtube"
  | .unknown => "unknown"

/-- The `Unsupported URL` error message. -/
def unsupportedMsg : String :=
  "Unsupported URL. Please use a Spotify, Apple Music, or YouTube Music playlist link."

/-- The `Could not fetch playlist` error message. -/
def couldNotFetchMsg : String :=
  "Could not fetch playlist. Make sure it\x27s a public playlist."

/-- The `Could not match any tracks` error message. -/
def noMatchMsg : String :=
  "Could not match any tracks. Try a different playlist."

/-- The `switch (platform)` block: parse the platform-specific id, fail with
the platform-specific invalid-URL error, or invoke the matching provider
fetcher; the `Except` value carries `(originalId, playlistData)`. -/
def fetchDispatch (env : ImportEnv) (platform : ImportPlatform) (url : String) :
    Except String (String × Option FetchedPlaylist) :=
  match platform with
  | .spotify =>
    match parseSpotifyUrl url with
    | none => .error "Invalid Spotify playlist URL"
    | some id =>
      .ok (id, fetchSpotifyPlaylist (env.spotifyMeta id) (env.spotifyScraper id)
          (env.spotifyEmbed id))
  | .apple =>
    match parseAppleMusicUrl url with
    | none => .error "Invalid Apple Music playlist URL"
    | some sfid =>
      .ok (sfid.2, fetchAppleMusicPlaylist (env.apple sfid.1 sfid.2))
  | .youtube =>
    match parseYouTubeMusicUrl url with
    | none => .error "Invalid YouTube Music playlist URL"
    | some id => .ok (id, fetchYouTubeMusicPlaylist (fun inst => env.youtube inst id))
  | .unknown => .ok ("", none)

/-- The sequential matching loop: one progress event per track carrying the
1-based index, then the match; matched results and unmatched originals are
accumulated in order.  (The 200 ms inter-track pause has no observable effect
in this model.)  Returns `(matched, unmatched, events)`. -/
def matchLoop (env : ImportEnv) (total : Nat) :
    Nat → List ImportedTrack → List PlaylistTrack × List ImportedTrack × List ImportProgress
  | _, [] => ([], [], [])
  | i, t :: rest =>
    let ev : ImportProgress :=
      { stage := .matching, current := i + 1, total := total, message := "Matching: " ++ t.title }
    let r := matchLoop env total (i + 1) rest
    match matchTrack env.qobuz env.tidal env.now t with
    | some mt => (mt :: r.1, r.2.1, ev :: r.2.2)
    | none => (r.1, t :: r.2.1, ev :: r.2.2)

/-- JS `matchedTracks[0]?.coverArt || undefined`: cover art of the head, with the
JS falsy empty string collapsed to `undefined`. -/
def coverOfHead (matched : List PlaylistTrack) : Option String :=
  match matched.head? with
  | some t =>
    match t.coverArt with
    | some s => if s = "" then none else some s
    | none => none
  | none => none

/-- Embedding of `importPlaylist` after the platform check: fetch, match, save.  Returns
the result, the emitted progress events in order, and the external
operations in order. -/
def importCore (env : ImportEnv) (platform : ImportPlatform) (url : String) :
    ImportResult × List ImportProgress × List ImportOp :=
  let fetchEv : ImportProgress :=
    { stage := .fetching, current := 0, total := 0,
      message := "Fetching playlist from " ++ platformName platform ++ "..." }
  match fetchDispatch env platform url with
  | .error e =>
    ({ success := false, playlist := none, totalTracks := 0, matchedTracks := 0,
       unmatchedTracks := [], error := some e }, [fetchEv], [])
  | .ok (originalId, pdOpt) =>
    match pdOpt with
    | none =>
      ({ success := false, playlist := none, totalTracks := 0, matchedTracks := 0,
         unmatchedTracks := [], error := some couldNotFetchMsg },
       [fetchEv], [ImportOp.fetch platform originalId])
    | some pd =>
      if pd.tracks.isEmpty then
        ({ success := false, playlist := none, totalTracks := 0, matchedTracks := 0,
           unmatchedTracks := [], error := some couldNotFetchMsg },
         [fetchEv], [ImportOp.fetch platform originalId])
      else
        let total := pd.tracks.length
        let m0 : ImportProgress :=
          { stage := .matching, current := 0, total := total,
            message := "Matching " ++ toString total ++ " tracks..." }
        let r := matchLoop env total 0 pd.tracks
        if r.1.isEmpty then
          ({ success := false, playlist := none, totalTracks := total, matchedTracks := 0,
             unmatchedTracks := r.2.1, error := some noMatchMsg },
           fetchEv :: m0 :: r.2.2, [ImportOp.fetch platform originalId])
        else
          let savingEv : ImportProgress :=
            { stage := .saving, current := 0, total := 0, message := "Saving playlist..." }
          let newPl := env.createPlaylist pd.name
          let updated : UserPlaylist :=
            { newPl with
              tracks := r.1
              coverArt := coverOfHead r.1
              importSource := some ⟨platform, originalId, pd.name⟩ }
          let doneEv : ImportProgress :=
            { stage := .done, current := r.1.length, total := total,
              message := "Import complete!" }
          ({ success := true, playlist := some updated, totalTracks := total,
             matchedTracks := r.1.length, unmatchedTracks := r.2.1, error := none },
           fetchEv :: m0 :: (r.2.2 ++ [savingEv, doneEv]),
           [ImportOp.fetch platform originalId, ImportOp.create pd.name,
            ImportOp.update updated])

/-- Embedding of `importPlaylist(url, onProgress)`: the unknown-platform check, then the
fetch / match / save pipeline. -/
def importPlaylistT (env : ImportEnv) (url : String) :
    ImportResult × List ImportProgress × List ImportOp :=
  if detectPlatform url = .unknown then
    ({ success := false, playlist := none, totalTracks := 0, matchedTracks := 0,
       unmatchedTracks := [], error := some unsupportedMsg }, [], [])
  else
    importCore env (detectPlatform url) url

/-- The progress events of one run whose `stage` is `matching`. -/
def matchingEvents (env : ImportEnv) (url : String) : List ImportProgress :=
  ((importPlaylistT env url).2.1).filter (fun e => decide (e.stage = ImportStage.matching))

-- ===========================================================================
-- Helper lemmas
-- ===========================================================================

theorem truthy_eq_true {s : String} : truthy s = true ↔ s ≠ "" := by
  simp [truthy]

/-- Every track surviving the shared Spotify validity filter has a non-empty
title and artist. -/
theorem dropInvalid_sound {l : List ImportedTrack} {t : ImportedTrack}
    (ht : t ∈ dropInvalid l) : t.title ≠ "" ∧ t.artist ≠ "" := by
  rw [dropInvalid, List.mem_filter] at ht
  have h := ht.2
  rw [Bool.and_eq_true, truthy_eq_true, truthy_eq_true] at h
  exact h

/-- A successful first Spotify strategy returns a filtered track list. -/
theorem spotifyStage1_tracks {o : Option SpotifyMeta} {p : FetchedPlaylist}
    (h : spotifyStage1 o = some p) : ∃ l, p.tracks = dropInvalid l := by
  unfold spotifyStage1 at h
  repeat split at h
  all_goals first
    | exact Option.noConfusion h
    | (injection h with h; subst h; exact ⟨_, rfl⟩)

/-- A successful second Spotify strategy returns a filtered track list. -/
theorem spotifyStage2_tracks {o : Option ScraperData} {p : FetchedPlaylist}
    (h : spotifyStage2 o = some p) : ∃ l, p.tracks = dropInvalid l := by
  unfold spotifyStage2 at h
  repeat split at h
  all_goals first
    | exact Option.noConfusion h
    | (injection h with h; subst h; exact ⟨_, rfl⟩)

/-- A successful third Spotify strategy returns a filtered track list. -/
theorem spotifyStage3_tracks {o : Option (Option EmbedData)} {p : FetchedPlaylist}
    (h : spotifyStage3 o = some p) : ∃ l, p.tracks = dropInvalid l := by
  unfold spotifyStage3 at h
  repeat split at h
  all_goals first
    | exact Option.noConfusion h
    | (injection h with h; subst h; exact ⟨_, rfl⟩)

/-- The matching loop preserves the track count: matched plus unmatched is
the number of source tracks. -/
theorem matchLoop_counts (env : ImportEnv) (total : Nat) (ts : List ImportedTrack) :
    ∀ i, (matchLoop env total i ts).1.length + (matchLoop env total i ts).2.1.length
      = ts.length := by
  induction ts with
  | nil => intro i; simp [matchLoop]
  | cons t rest ih =>
    intro i
    have hi := ih (i + 1)
    unfold matchLoop
    cases h : matchTrack env.qobuz env.tidal env.now t <;> simp [h] <;> omega

/-- The matching loop emits exactly one event per track, with 1-based
strictly increasing indices, all tagged with the matching stage. -/
theorem matchLoop_events (env : ImportEnv) (total : Nat) (ts : List ImportedTrack) :
    ∀ i, ((matchLoop env total i ts).2.2).map (fun e => e.current)
        = List.range' (i + 1) ts.length
      ∧ ∀ e ∈ (matchLoop env total i ts).2.2, e.stage = ImportStage.matching := by
  induction ts with
  | nil => intro i; simp [matchLoop]
  | cons t rest ih =>
    intro i
    have h1 := (ih (i + 1)).1
    have h2 := (ih (i + 1)).2
    unfold matchLoop
    cases h : matchTrack env.qobuz env.tidal env.now t <;> refine ⟨?_, ?_⟩
    · simp [h, List.range'_succ, h1]
    · intro e he
      simp only [h] at he
      rcases List.mem_cons.mp he with rfl | he2
      · rfl
      · exact h2 e he2
    · simp [h, List.range'_succ, h1]
    · intro e he
      simp only [h] at he
      rcases List.mem_cons.mp he with rfl | he2
      · rfl
      · exact h2 e he2

/-- If no track matches, the loop returns no matched track and all source
tracks, in order, as unmatched. -/
theorem matchLoop_allNone (env : ImportEnv) (total : Nat) (ts : List ImportedTrack)
    (h : ∀ t ∈ ts, matchTrack env.qobuz env.tidal env.now t = none) :
    ∀ i, (matchLoop env total i ts).1 = [] ∧ (matchLoop env total i ts).2.1 = ts := by
  induction ts with
  | nil => intro i; simp [matchLoop]
  | cons t rest ih =>
    intro i
    unfold matchLoop
    rw [h t (by simp)]
    have ihr := ih (fun x hx => h x (by simp [hx])) (i + 1)
    simp [ihr.1, ihr.2]

-- ===========================================================================
-- Concrete inputs used by the witnesses
-- ===========================================================================

/-- A sample catalog result track. -/
def mt1 : MusicTrack :=
  { id := "q1", title := "T", artist := "A", artistId := some "a1", album := some "Al",
    albumId := some "al1", duration := some 100, coverArt := some "cover.jpg" }

/-- A sample imported track. -/
def trk1 : ImportedTrack := { title := "T0", artist := "A0", album := none, duration := none }

/-- A sample Invidious video entry. -/
def v1 : YtVideo :=
  { title := some "Song", author := some "Artist", authorId := none, lengthSeconds := some 200 }

/-- An environment in which every network call fails. -/
def emptyEnv : ImportEnv :=
  { spotifyMeta := fun _ => none
    spotifyScraper := fun _ => none
    spotifyEmbed := fun _ => none
    apple := fun _ _ => none
    youtube := fun _ _ => none
    qobuz := fun _ => none
    tidal := fun _ => none
    createPlaylist := fun n =>
      { id := "p1", name := n, tracks := [], coverArt := none, importSource := none }
    now := 7 }

/-- An environment in which the YouTube fetch succeeds with one video but no
catalog backend ever answers. -/
def envNoMatch : ImportEnv :=
  { emptyEnv with youtube := fun _ _ => some { title := some "P", videos := some [v1] } }

/-- Environment `envNoMatch` with a Qobuz backend that matches every query. -/
def envOk : ImportEnv := { envNoMatch with qobuz := fun _ => some [mt1] }

/-- A sample YouTube Music playlist URL. -/
def urlYt : String := "https://music.youtube.com/playlist?list=PL1"

/-- The payload `envNoMatch`/`envOk` fetch for `urlYt`. -/
def pdYt : FetchedPlaylist := { name := "P", tracks := [mapYtVideo v1] }

/-- A sample SpotifyDown raw track. -/
def smt1 : SpotifyMetaTrack :=
  { title := some "T", name := none, artists := some "A", artist := none, album := none,
    durationSec := none, duration := none }

/-- A sample successful SpotifyDown metadata response. -/
def meta1 : SpotifyMeta := { success := true, trackList := some [smt1], title := some "PL" }

/-- The payload strategy 1 yields for `meta1`. -/
def p1 : FetchedPlaylist :=
  { name := "PL", tracks := [{ title := "T", artist := "A", album := some "", duration := some 0 }] }

/-- A sample scraper nested track object. -/
def strack2 : ScraperTrackObj :=
  { name := some "T2", artists := some [{ name := some "A2" }], album := none,
    duration_ms := some 3000 }

/-- A sample scraper item. -/
def item1 : ScraperItem :=
  { track := some strack2, name := none, artists := none, album := none, duration_ms := none }

/-- A sample successful Spotify Scraper response. -/
def scr1 : ScraperData := { name := some "PL2", tracks := some { items := some [item1] } }

/-- The payload strategy 2 yields for `scr1`. -/
def p2 : FetchedPlaylist :=
  { name := "PL2", tracks := [{ title := "T2", artist := "A2", album := some "", duration := some 3 }] }

-- ===========================================================================
-- C1: matchTrack queries Qobuz (high-trust) first with fixed confidence 90,
-- falls back to Tidal with fixed confidence 85, and returns no match when
-- both backends yield nothing.
-- ===========================================================================

/-- C1.  `matchTrack` builds the query by joining title and artist with a
space and queries the high-trust backend (Qobuz) first: on a non-empty
result list it returns the first element with `matchConfidence` 90 and
`source` `"qobuz"` without querying the fallback backend (trace `["qobuz"]`);
when the high-trust backend raises or returns no results it queries the
fallback backend (Tidal) and, on a non-empty result list, returns the first
element with `matchConfidence` 85 and `source` `"tidal"`; when both backends
raise or return nothing it returns no match. -/
theorem matchTrack_spec (qobuz tidal : BackendOracle) (now : Nat) (track : ImportedTrack) :
    (∀ m ms, qobuz (track.title ++ " " ++ track.artist) = some (m :: ms) →
      matchTrackT qobuz tidal now track
          = (some (toPlaylistTrack "qobuz" 90 now track m), ["qobuz"])
        ∧ (toPlaylistTrack "qobuz" 90 now track m).matchConfidence = 90
        ∧ (toPlaylistTrack "qobuz" 90 now track m).source = "qobuz")
    ∧ (noResults (qobuz (track.title ++ " " ++ track.artist)) →
      ∀ m ms, tidal (track.title ++ " " ++ track.artist) = some (m :: ms) →
      matchTrackT qobuz tidal now track
          = (some (toPlaylistTrack "tidal" 85 now track m), ["qobuz", "tidal"])
        ∧ (toPlaylistTrack "tidal" 85 now track m).matchConfidence = 85
        ∧ (toPlaylistTrack "tidal" 85 now track m).source = "tidal")
    ∧ (noResults (qobuz (track.title ++ " " ++ track.artist)) →
      noResults (tidal (track.title ++ " " ++ track.artist)) →
      matchTrackT qobuz tidal now track = (none, ["qobuz", "tidal"])) := by
  refine ⟨?_, ?_, ?_⟩
  · intro m ms h
    refine ⟨?_, rfl, rfl⟩
    simp [matchTrackT, h]
  · intro hq m ms h
    refine ⟨?_, rfl, rfl⟩
    rcases hq with h0 | h0 <;> simp [matchTrackT, h0, h]
  · intro hq ht
    rcases hq with h0 | h0 <;> rcases ht with h1 | h1 <;> simp [matchTrackT, h0, h1]

/-- Witness for C1: all three branches at concrete backends. -/
theorem matchTrack_spec_witness :
    matchTrackT (fun _ => some [mt1]) (fun _ => none) 7 trk1
      = (some (toPlaylistTrack "qobuz" 90 7 trk1 mt1), ["qobuz"])
    ∧ matchTrackT (fun _ => none) (fun _ => some [mt1]) 7 trk1
      = (some (toPlaylistTrack "tidal" 85 7 trk1 mt1), ["qobuz", "tidal"])
    ∧ matchTrackT (fun _ => none) (fun _ => none) 7 trk1 = (none, ["qobuz", "tidal"]) := by
  refine ⟨((matchTrack_spec (fun _ => some [mt1]) (fun _ => none) 7 trk1).1 mt1 [] rfl).1,
    ((matchTrack_spec (fun _ => none) (fun _ => some [mt1]) 7 trk1).2.1
      (Or.inl rfl) mt1 [] rfl).1,
    (matchTrack_spec (fun _ => none) (fun _ => none) 7 trk1).2.2 (Or.inl rfl) (Or.inl rfl)⟩

-- ===========================================================================
-- C3: the three strategies of the Spotify fetcher are tried in strict order with
-- short-circuiting.
-- ===========================================================================

/-- C3.  The Spotify fetcher tries its three retrieval strategies in strict
order: when the first strategy returns a payload with at least one valid
track, the result is that payload and strategies 2 and 3 are never invoked
(trace `[1]`); when strategy 1 fails and strategy 2 returns a payload with at
least one valid track, the result is that payload and strategy 3 is never
invoked (trace `[1, 2]`); when all three strategies fail the fetcher returns
no result. -/
theorem fetchSpotify_strategy_order (o1 : Option SpotifyMeta) (o2 : Option ScraperData)
    (o3 : Option (Option EmbedData)) :
    (∀ p, spotifyStage1 o1 = some p → p.tracks ≠ [] →
      fetchSpotifyPlaylistT o1 o2 o3 = (some p, [1]))
    ∧ (spotifyStage1 o1 = none → ∀ p, spotifyStage2 o2 = some p → p.tracks ≠ [] →
      fetchSpotifyPlaylistT o1 o2 o3 = (some p, [1, 2]))
    ∧ (spotifyStage1 o1 = none → spotifyStage2 o2 = none → spotifyStage3 o3 = none →
      fetchSpotifyPlaylistT o1 o2 o3 = (none, [1, 2, 3])) := by
  refine ⟨?_, ?_, ?_⟩
  · intro p h _
    simp [fetchSpotifyPlaylistT, h]
  · intro h1 p h2 _
    simp [fetchSpotifyPlaylistT, h1, h2]
  · intro h1 h2 h3
    simp [fetchSpotifyPlaylistT, h1, h2, h3]

/-- Witness for C3: the three branches at concrete strategy responses. -/
theorem fetchSpotify_strategy_order_witness :
    fetchSpotifyPlaylistT (some meta1) none none = (some p1, [1])
    ∧ fetchSpotifyPlaylistT none (some scr1) none = (some p2, [1, 2])
    ∧ fetchSpotifyPlaylistT none none none = (none, [1, 2, 3]) :=
  ⟨(fetchSpotify_strategy_order (some meta1) none none).1 p1 (by decide) (by decide),
   (fetchSpotify_strategy_order none (some scr1) none).2.1 rfl p2 (by decide) (by decide),
   (fetchSpotify_strategy_order none none none).2.2 rfl rfl rfl⟩

-- ===========================================================================
-- C4: detectPlatform classifies by case-insensitive domain substrings in a
-- fixed priority order and is total.
-- ===========================================================================

/-- The lowercased URL contains a Spotify domain substring. -/
abbrev spotifyHit (l : String) : Prop :=
  containsSub l "spotify.com" = true ∨ containsSub l "spotify.link" = true

/-- The lowercased URL contains an Apple Music domain substring. -/
abbrev appleHit (l : String) : Prop :=
  containsSub l "music.apple.com" = true ∨ containsSub l "itunes.apple.com" = true

/-- The lowercased URL contains a YouTube Music domain substring. -/
abbrev youtubeHit (l : String) : Prop :=
  containsSub l "music.youtube.com" = true ∨ containsSub l "youtube.com/playlist" = true

/-- C4.  `detectPlatform` is total (it is a Lean function) and classifies by
case-insensitive domain substrings in a fixed priority order: any URL whose
lowercasing contains a Spotify domain yields `spotify`; otherwise an Apple
domain yields `apple`; otherwise a YouTube domain yields `youtube`; any other
string yields `unknown`. -/
theorem detectPlatform_spec (url : String) :
    (spotifyHit (toLowerStr url) → detectPlatform url = .spotify)
    ∧ (¬ spotifyHit (toLowerStr url) → appleHit (toLowerStr url) →
      detectPlatform url = .apple)
    ∧ (¬ spotifyHit (toLowerStr url) → ¬ appleHit (toLowerStr url) →
      youtubeHit (toLowerStr url) → detectPlatform url = .youtube)
    ∧ (¬ spotifyHit (toLowerStr url) → ¬ appleHit (toLowerStr url) →
      ¬ youtubeHit (toLowerStr url) → detectPlatform url = .unknown) := by
  refine ⟨?_, ?_, ?_, ?_⟩
  · intro h
    rcases h with h | h <;> simp [detectPlatform, h]
  · intro h1 h2
    simp only [spotifyHit, not_or, Bool.not_eq_true] at h1
    rcases h2 with h | h <;> simp [detectPlatform, h1.1, h1.2, h]
  · intro h1 h2 h3
    simp only [spotifyHit, not_or, Bool.not_eq_true] at h1
    simp only [appleHit, not_or, Bool.not_eq_true] at h2
    rcases h3 with h | h <;> simp [detectPlatform, h1.1, h1.2, h2.1, h2.2, h]
  · intro h1 h2 h3
    simp only [spotifyHit, not_or, Bool.not_eq_true] at h1
    simp only [appleHit, not_or, Bool.not_eq_true] at h2
    simp only [youtubeHit, not_or, Bool.not_eq_true] at h3
    simp [detectPlatform, h1.1, h1.2, h2.1, h2.2, h3.1, h3.2]

/-- Witness for C4: one URL per platform, including a mixed-case one. -/
theorem detectPlatform_spec_witness :
    detectPlatform "HTTPS://OPEN.SPOTIFY.COM/playlist/ABC" = .spotify
    ∧ detectPlatform "https://music.apple.com/us/playlist/x/pl.a" = .apple
    ∧ detectPlatform "https://music.youtube.com/playlist?list=a" = .youtube
    ∧ detectPlatform "https://example.com/nothing" = .unknown :=
  ⟨(detectPlatform_spec _).1 (Or.inl (by decide)),
   (detectPlatform_spec _).2.1 (by decide) (Or.inl (by decide)),
   (detectPlatform_spec _).2.2.1 (by decide) (by decide) (Or.inl (by decide)),
   (detectPlatform_spec _).2.2.2 (by decide) (by decide) (by decide)⟩

-- ===========================================================================
-- C8: an unknown-platform URL terminates immediately with an error result
-- and no progress events.
-- ===========================================================================

/-- C8.  For every URL classified `unknown`, `importPlaylist` terminates
immediately with `success:false`, zero totals, an empty unmatched list, the
non-empty unsupported-URL error, no progress events and no external
operations. -/
theorem importUnknown_spec (env : ImportEnv) (url : String)
    (h : detectPlatform url = .unknown) :
    importPlaylistT env url =
      ({ success := false, playlist := none, totalTracks := 0, matchedTracks := 0,
         unmatchedTracks := [], error := some unsupportedMsg }, [], []) := by
  simp [importPlaylistT, h]

/-- Witness for C8 at a concrete unrecognized URL. -/
theorem importUnknown_spec_witness :
    importPlaylistT emptyEnv "https://example.com/list" =
      ({ success := false, playlist := none, totalTracks := 0, matchedTracks := 0,
         unmatchedTracks := [], error := some unsupportedMsg }, [], []) :=
  importUnknown_spec emptyEnv "https://example.com/list" (by decide)

-- ===========================================================================
-- C10: a spotify.link short URL is classified spotify but fails id parsing,
-- so the import returns the invalid-URL error without invoking the fetcher.
-- ===========================================================================

/-- C10.  `https://spotify.link/abc123` is detected as Spotify, yet
`parseSpotifyUrl` extracts no id (no `playlist/<id>` segment), so
`importPlaylist` returns the `Invalid Spotify playlist URL` error and
performs no external operation at all — in particular the fetcher is never
invoked. -/
theorem spotifyLink_mismatch :
    detectPlatform "https://spotify.link/abc123" = .spotify
    ∧ parseSpotifyUrl "https://spotify.link/abc123" = none
    ∧ (importPlaylistT emptyEnv "https://spotify.link/abc123").1 =
      { success := false, playlist := none, totalTracks := 0, matchedTracks := 0,
        unmatchedTracks := [], error := some "Invalid Spotify playlist URL" }
    ∧ (importPlaylistT emptyEnv "https://spotify.link/abc123").2.2 = [] := by
  refine ⟨by decide, by decide, by decide, by decide⟩

-- ===========================================================================
-- C5: result invariant — success iff a track matched and the playlist was
-- persisted; matched + unmatched = total on every return path.
-- ===========================================================================

/-- C5.  On every return path of `importPlaylist`, `success = true` iff at
least one track matched and an `updatePlaylist` storage operation was
performed, and the matched count plus the length of `unmatchedTracks` equals
`totalTracks` (all three being zero on the early error paths). -/
theorem importResult_invariant (env : ImportEnv) (url : String) :
    ((importPlaylistT env url).1.success = true ↔
      1 ≤ (importPlaylistT env url).1.matchedTracks
        ∧ ∃ p, ImportOp.update p ∈ (importPlaylistT env url).2.2)
    ∧ (importPlaylistT env url).1.matchedTracks
        + (importPlaylistT env url).1.unmatchedTracks.length
        = (importPlaylistT env url).1.totalTracks := by
  unfold importPlaylistT importCore
  split
  · simp
  · split
    · simp
    · split
      · simp
      · split
        · simp
        · dsimp only
          split
          · rename_i hempty
            rename_i pd hpd hne
            have hc := matchLoop_counts env pd.tracks.length pd.tracks 0
            rw [List.isEmpty_iff] at hempty
            constructor
            · simp
            · rw [hempty] at hc
              simpa using hc
          · rename_i hnonempty
            rename_i pd hpd hne
            have hc := matchLoop_counts env pd.tracks.length pd.tracks 0
            rw [Bool.not_eq_true, List.isEmpty_eq_false] at hnonempty
            constructor
            · simp only [true_iff]
              refine ⟨?_, ?_⟩
              · have := List.length_pos.mpr hnonempty
                omega
              · exact ⟨_, List.Mem.tail _ (List.Mem.tail _ (List.Mem.head _))⟩
            · simpa using hc

-- ===========================================================================
-- C6: a fetched playlist in which no track matches yields the
-- could-not-match error, full unmatched list, and no save stage.
-- ===========================================================================

/-- C6.  When the fetch succeeds with a non-empty track list but no track
matches either catalog backend, `importPlaylist` returns `success:false`,
`matchedTracks = 0`, `unmatchedTracks` equal to the whole fetched list (so
its length is `totalTracks`), the non-empty could-not-match error, and the
save stage never executes: no `create`/`update` storage operation and no
saving-stage progress event. -/
theorem importNoMatch_spec (env : ImportEnv) (url : String) (oid : String)
    (pd : FetchedPlaylist)
    (hd : fetchDispatch env (detectPlatform url) url = .ok (oid, some pd))
    (hne : pd.tracks ≠ [])
    (hnm : ∀ t ∈ pd.tracks, matchTrack env.qobuz env.tidal env.now t = none) :
    (importPlaylistT env url).1 =
      { success := false, playlist := none, totalTracks := pd.tracks.length,
        matchedTracks := 0, unmatchedTracks := pd.tracks, error := some noMatchMsg }
    ∧ (∀ p, ImportOp.update p ∉ (importPlaylistT env url).2.2)
    ∧ (∀ n, ImportOp.create n ∉ (importPlaylistT env url).2.2)
    ∧ (∀ e ∈ (importPlaylistT env url).2.1, e.stage ≠ ImportStage.saving) := by
  have hAll := matchLoop_allNone env pd.tracks.length pd.tracks hnm 0
  have hEv := (matchLoop_events env pd.tracks.length pd.tracks 0).2
  unfold importPlaylistT
  split
  · rename_i hu
    rw [hu] at hd
    exact absurd hd (by simp [fetchDispatch])
  · unfold importCore
    rw [hd]
    try dsimp only
    split
    · rename_i h
      rw [List.isEmpty_iff] at h
      exact absurd h hne
    · try dsimp only
      split
      · refine ⟨?_, ?_, ?_, ?_⟩
        · simp [hAll.2]
        · intro p hp
          simp at hp
        · intro n hn
          simp at hn
        · intro e he
          simp only [List.mem_cons] at he
          rcases he with rfl | rfl | he
          · simp
          · simp
          · rw [hEv e he]
            decide
      · rename_i h
        rw [Bool.not_eq_true, List.isEmpty_eq_false] at h
        exact absurd hAll.1 h

/-- Witness for C6 at a concrete one-track fetched playlist with dead
backends. -/
theorem importNoMatch_spec_witness :
    (importPlaylistT envNoMatch urlYt).1 =
      { success := false, playlist := none, totalTracks := pdYt.tracks.length,
        matchedTracks := 0, unmatchedTracks := pdYt.tracks, error := some noMatchMsg } :=
  (importNoMatch_spec envNoMatch urlYt "PL1" pdYt rfl (by decide) (by decide)).1

-- ===========================================================================
-- C2 (corrected): matching-stage progress events.  The code also emits an
-- announcement event with current = 0 and stage = matching before the loop,
-- so the matching-stage events run 0, 1, ..., total, not 1, ..., total.
-- ===========================================================================

/-- Counterexample to C2 as stated: with one fetched track, the
matching-stage events have `current` values `[0, 1]` — two events for one
source track, the first with `current = 0`, not the claimed single event
running from 1 to total. -/
theorem matching_events_counterexample :
    (importPlaylistT envOk urlYt).1.totalTracks = 1
    ∧ (matchingEvents envOk urlYt).map (fun e => e.current) = [0, 1]
    ∧ (matchingEvents envOk urlYt).length ≠ (importPlaylistT envOk urlYt).1.totalTracks := by
  refine ⟨by decide, by decide, by decide⟩

/-- C2 as amended.  For every run that reaches the matching stage (fetch
succeeded with a non-empty track list), the matching-stage progress events
consist of one announcement event with `current = 0` followed by exactly one
event per source track with strictly increasing `current` values 1, ...,
total — i.e. their `current` values are `0, 1, ..., total` with no gaps and
no repeats. -/
theorem matching_events_amended (env : ImportEnv) (url : String) (oid : String)
    (pd : FetchedPlaylist)
    (hd : fetchDispatch env (detectPlatform url) url = .ok (oid, some pd))
    (hne : pd.tracks ≠ []) :
    (matchingEvents env url).map (fun e => e.current) = List.range (pd.tracks.length + 1) := by
  have h1 := (matchLoop_events env pd.tracks.length pd.tracks 0).1
  have h2 := (matchLoop_events env pd.tracks.length pd.tracks 0).2
  have hfil : ((matchLoop env pd.tracks.length 0 pd.tracks).2.2).filter
      (fun e => decide (e.stage = ImportStage.matching))
      = (matchLoop env pd.tracks.length 0 pd.tracks).2.2 :=
    List.filter_eq_self.mpr (fun e he => by rw [h2 e he]; simp)
  unfold matchingEvents importPlaylistT
  split
  · rename_i hu
    rw [hu] at hd
    exact absurd hd (by simp [fetchDispatch])
  · unfold importCore
    rw [hd]
    try dsimp only
    split
    · rename_i h
      rw [List.isEmpty_iff] at h
      exact absurd h hne
    · try dsimp only
      split
      · simp [List.filter_cons, hfil, h1, List.range_eq_range', List.range'_succ]
      · simp [List.filter_cons, List.filter_append, hfil, h1,
          List.range_eq_range', List.range'_succ]

/-- Witness for the amended C2 at a concrete one-track run. -/
theorem matching_events_amended_witness :
    (matchingEvents envOk urlYt).map (fun e => e.current)
      = List.range (pdYt.tracks.length + 1) :=
  matching_events_amended envOk urlYt "PL1" pdYt rfl (by decide)

-- ===========================================================================
-- C9 (corrected): the cover art of the persisted playlist is that of the
-- first matched track when it is a non-empty string; when the first matched
-- track has no cover art, or an empty-string (JS-falsy) one, the playlist
-- cover art is left unset by `matchedTracks[0]?.coverArt || undefined`, so
-- the literal "equals" of the claim fails on the empty-string case.
-- ===========================================================================

/-- A catalog result track whose cover art is the empty string. -/
def mtEC : MusicTrack :=
  { id := "q2", title := "T", artist := "A", artistId := none, album := none,
    albumId := none, duration := none, coverArt := some "" }

/-- Environment `envNoMatch` with a Qobuz backend whose single result track
carries an empty-string cover art. -/
def envEC : ImportEnv := { envNoMatch with qobuz := fun _ => some [mtEC] }

/-- Counterexample to C9 as stated: a successful one-track import whose first
(and only) matched track has cover art `some ""` — present, so the claim
requires the persisted playlist cover art to equal it — while the persisted
playlist (the argument of the `update` storage operation) has its cover art
unset, since the source coerces the JS-falsy empty string to `undefined`. -/
theorem importCoverArt_counterexample :
    (importPlaylistT envEC urlYt).1.success = true
    ∧ ImportOp.update ((importPlaylistT envEC urlYt).1.playlist.getD
        (emptyEnv.createPlaylist "x")) ∈ (importPlaylistT envEC urlYt).2.2
    ∧ ((importPlaylistT envEC urlYt).1.playlist.getD
        (emptyEnv.createPlaylist "x")).tracks.map (fun t => t.coverArt) = [some ""]
    ∧ ((importPlaylistT envEC urlYt).1.playlist.getD
        (emptyEnv.createPlaylist "x")).coverArt = none
    ∧ ((importPlaylistT envEC urlYt).1.playlist.getD
        (emptyEnv.createPlaylist "x")).coverArt ≠ some "" := by
  refine ⟨by decide, by decide, by decide, by decide, by decide⟩

/-- C9 as amended.  On every successful import, the returned playlist is also
the one persisted by the `update` storage operation, its track list is the
matched list, and its `coverArt` equals the cover art of the first matched
track when that is a non-empty string; when the first matched track has no
cover art, or the JS-falsy empty string as cover art, the `coverArt` of the
persisted playlist is left unset. -/
theorem importCoverArt_spec (env : ImportEnv) (url : String) (pl : UserPlaylist)
    (t : PlaylistTrack) (ts : List PlaylistTrack)
    (hs : (importPlaylistT env url).1.success = true)
    (hp : (importPlaylistT env url).1.playlist = some pl)
    (htr : pl.tracks = t :: ts) :
    ImportOp.update pl ∈ (importPlaylistT env url).2.2
    ∧ (t.coverArt = none → pl.coverArt = none)
    ∧ (t.coverArt = some "" → pl.coverArt = none)
    ∧ (∀ s, t.coverArt = some s → s ≠ "" → pl.coverArt = some s) := by
  rcases hrun : importPlaylistT env url with ⟨res, evs, ops⟩
  rw [hrun] at hs hp
  dsimp only at hs hp ⊢
  unfold importPlaylistT importCore at hrun
  split at hrun
  · injection hrun with e1 e23
    subst e1
    simp at hs
  · split at hrun
    · injection hrun with e1 e23
      subst e1
      simp at hs
    · split at hrun
      · injection hrun with e1 e23
        subst e1
        simp at hs
      · split at hrun
        · injection hrun with e1 e23
          subst e1
          simp at hs
        · dsimp only at hrun
          split at hrun
          · injection hrun with e1 e23
            subst e1
            simp at hs
          · injection hrun with e1 e23
            injection e23 with e2 e3
            subst e1
            subst e3
            simp only [ImportResult.playlist] at hp
            injection hp with hp
            subst hp
            simp only [UserPlaylist.tracks] at htr
            refine ⟨by simp, ?_, ?_, ?_⟩
            · intro hc
              simp only [UserPlaylist.coverArt]
              rw [coverOfHead, htr]
              simp [hc]
            · intro hc
              simp only [UserPlaylist.coverArt]
              rw [coverOfHead, htr]
              simp [hc]
            · intro s hc hsne
              simp only [UserPlaylist.coverArt]
              rw [coverOfHead, htr]
              simp [hc, hsne]

/-- Witness for the amended C9: a concrete successful one-track import with a
non-empty cover art, and one whose only matched track has the empty-string
cover art, leaving the persisted cover art unset. -/
theorem importCoverArt_spec_witness :
    (ImportOp.update ((importPlaylistT envOk urlYt).1.playlist.getD
        (emptyEnv.createPlaylist "x")) ∈ (importPlaylistT envOk urlYt).2.2
      ∧ ((importPlaylistT envOk urlYt).1.playlist.getD
        (emptyEnv.createPlaylist "x")).coverArt = some "cover.jpg")
    ∧ ((importPlaylistT envEC urlYt).1.playlist.getD
        (emptyEnv.createPlaylist "x")).coverArt = none := by
  have h := importCoverArt_spec envOk urlYt
    ((importPlaylistT envOk urlYt).1.playlist.getD (emptyEnv.createPlaylist "x"))
    (toPlaylistTrack "qobuz" 90 7 (mapYtVideo v1) mt1) [] (by decide) (by decide) (by decide)
  have h2 := importCoverArt_spec envEC urlYt
    ((importPlaylistT envEC urlYt).1.playlist.getD (emptyEnv.createPlaylist "x"))
    (toPlaylistTrack "qobuz" 90 7 (mapYtVideo v1) mtEC) [] (by decide) (by decide) (by decide)
  exact ⟨⟨h.1, h.2.2.2 "cover.jpg" (by decide) (by decide)⟩, h2.2.2.1 (by decide)⟩

-- ===========================================================================
-- C7: the Spotify fetcher filters out mapped tracks with missing/empty
-- title or artist; the Apple Music and YouTube Music fetchers do not filter.
-- ===========================================================================

/-- C7.  Every track in a payload returned by the Spotify fetcher has a
non-empty title and artist (invalid mapped tracks are dropped), while the
Apple Music fetcher and the YouTube Music fetcher return exactly their mapped
track lists, with no filtering on missing title or artist. -/
theorem fetcherFiltering_spec :
    (∀ o1 o2 o3 p, fetchSpotifyPlaylist o1 o2 o3 = some p →
      ∀ t ∈ p.tracks, t.title ≠ "" ∧ t.artist ≠ "")
    ∧ (∀ resp p, fetchAppleMusicPlaylist (some resp) = some p →
      p.tracks = (appleTrackData resp).map mapAppleTrack)
    ∧ (∀ resp rest p, fetchYouTubeList (some resp :: rest) = some p →
      p.tracks = (resp.videos.getD []).map mapYtVideo) := by
  refine ⟨?_, ?_, ?_⟩
  · intro o1 o2 o3 p h t ht
    unfold fetchSpotifyPlaylist fetchSpotifyPlaylistT at h
    rcases h1 : spotifyStage1 o1 with _ | q
    · rcases h2 : spotifyStage2 o2 with _ | q2
      · rw [h1, h2] at h
        dsimp only at h
        obtain ⟨l, hl⟩ := spotifyStage3_tracks h
        rw [hl] at ht
        exact dropInvalid_sound ht
      · rw [h1, h2] at h
        dsimp only at h
        injection h with h
        subst h
        obtain ⟨l, hl⟩ := spotifyStage2_tracks h2
        rw [hl] at ht
        exact dropInvalid_sound ht
    · rw [h1] at h
      dsimp only at h
      injection h with h
      subst h
      obtain ⟨l, hl⟩ := spotifyStage1_tracks h1
      rw [hl] at ht
      exact dropInvalid_sound ht
  · intro resp p h
    unfold fetchAppleMusicPlaylist at h
    dsimp only at h
    unfold appleTrackData
    rcases hd : resp.data.bind List.head? with _ | pl <;> rw [hd] at h
    · exact absurd h (by simp)
    · dsimp only at h ⊢
      injection h with h
      subst h
      rfl
  · intro resp rest p h
    unfold fetchYouTubeList at h
    injection h with h
    subst h
    rfl

/-- A track that survives the Spotify filter in `p1`. -/
def tP1 : ImportedTrack := { title := "T", artist := "A", album := some "", duration := some 0 }

/-- An Apple Music track entry with no attributes at all. -/
def appleTrkE : AppleTrack := { attributes := none }

/-- Apple relationships wrapping the single attribute-less track. -/
def appleRelE : AppleRelationships := { tracks := some { data := some [appleTrkE] } }

/-- An Apple playlist object holding the attribute-less track. -/
def applePlE : ApplePlaylistObj := { attributes := none, relationships := some appleRelE }

/-- A successful Apple Music response whose only track has no fields. -/
def appleRespE : AppleResp := { data := some [applePlE] }

/-- The payload the Apple fetcher returns for `appleRespE`. -/
def pApple : FetchedPlaylist :=
  { name := "Apple Music Playlist", tracks := [mapAppleTrack appleTrkE] }

/-- An Invidious video entry with no fields. -/
def ytV : YtVideo := { title := none, author := none, authorId := none, lengthSeconds := none }

/-- A successful Invidious response whose only video has no fields. -/
def ytRespE : YtResp := { title := none, videos := some [ytV] }

/-- The payload the YouTube fetcher returns for `ytRespE`. -/
def pYt2 : FetchedPlaylist :=
  { name := "YouTube Music Playlist", tracks := [mapYtVideo ytV] }

/-- Witness for C7: Spotify output track is valid; the Apple and YouTube
fetchers return unfiltered mapped lists, including an empty-title track. -/
theorem fetcherFiltering_spec_witness :
    (tP1.title ≠ "" ∧ tP1.artist ≠ "")
    ∧ pApple.tracks = (appleTrackData appleRespE).map mapAppleTrack
    ∧ pApple.tracks = [{ title := "", artist := "", album := none, duration := none }]
    ∧ pYt2.tracks = (ytRespE.videos.getD []).map mapYtVideo
    ∧ pYt2.tracks = [{ title := "", artist := "Unknown Artist", album := none, duration := none }] :=
  ⟨fetcherFiltering_spec.1 (some meta1) none none p1 (by decide) tP1 (by decide),
   fetcherFiltering_spec.2.1 appleRespE pApple (by decide),
   by decide,
   fetcherFiltering_spec.2.2 ytRespE [] pYt2 (by decide),
   by decide⟩

end PlaylistImport
